import Mathlib

/-!
Shallow embedding of the `SignatureEscrow` Solidity contract
(src/app/hooks/useSecureVehicleTrading.ts, lines 480-1044) and proofs about
its escrow state machine and multi-signature approval protocol.

Modelling conventions:
* Ethereum addresses are natural numbers; `0` is the zero address.
* Solidity mappings are association lists with the zero-initialised struct
  as the default value of an absent key (`getD`), matching EVM storage.
* The EIP-712 typed data hash of `(escrowId, txType, nonce)` is modelled as
  the triple itself (keccak256 is treated as injective, i.e. collision-free).
* An ECDSA signature is modelled ideally as the pair of the key that
  produced it and the digest that was signed; `ecrecover` returns that key
  exactly when the digest matches (existential unforgeability idealised).
* External calls are modelled through an environment: `now` is
  `block.timestamp`; `nftOk` says whether an external ERC-721
  `transferFrom` call succeeds (it reverts otherwise, aborting the whole
  transaction); `erc20Ok` is the boolean returned by an external ERC-20
  `transfer`/`transferFrom` call (a `false` return does not revert by
  itself; the contract decides whether to check it).
* A function returning `Except.error` models a reverted transaction: per
  EVM semantics the entire call's storage writes are rolled back, so an
  error result carries no state and no transfer events.
* Custody movements are reported as a list of `Transfer` events tagged with
  the escrow id they concern.
-/


abbrev Addr := Nat

/-- Association-list lookup used to model Solidity mappings. -/
def alookup {α β : Type} [DecidableEq α] : List (α × β) → α → Option β
  | [], _ => none
  | (k, v) :: rest, key => if k = key then some v else alookup rest key

/-- Association-list update (replace-or-append), modelling a mapping write. -/
def aupdate {α β : Type} [DecidableEq α] : List (α × β) → α → β → List (α × β)
  | [], key, v => [(key, v)]
  | (k, w) :: rest, key, v =>
      if k = key then (key, v) :: rest else (k, w) :: aupdate rest key v

/-- `enum EscrowState { Created, BuyerDeposited, ReadyForExecution, Completed, Cancelled }` -/
inductive EscrowState where
  | Created
  | BuyerDeposited
  | ReadyForExecution
  | Completed
  | Cancelled
deriving DecidableEq

/-- `enum TransactionType { CompleteEscrow, CancelEscrow }` -/
inductive TransactionType where
  | CompleteEscrow
  | CancelEscrow
deriving DecidableEq

/-- `struct RequiredSignatures` -/
structure RequiredSignatures where
  requireBuyer : Bool
  requireSeller : Bool
  requireArbiter : Bool
  threshold : Nat
deriving DecidableEq

/-- `struct Escrow` -/
structure Escrow where
  seller : Addr
  nftContract : Addr
  tokenId : Nat
  paymentToken : Addr
  price : Nat
  buyer : Addr
  arbiter : Addr
  state : EscrowState
  requiredSignatures : RequiredSignatures
  expirationTime : Nat
deriving DecidableEq

/-- The zero-initialised `Escrow` struct a Solidity mapping yields for an
absent key (the contract treats `seller == 0` as "escrow does not exist"). -/
def defaultEscrow : Escrow :=
  { seller := 0, nftContract := 0, tokenId := 0, paymentToken := 0, price := 0,
    buyer := 0, arbiter := 0, state := EscrowState.Created,
    requiredSignatures :=
      { requireBuyer := false, requireSeller := false, requireArbiter := false, threshold := 0 },
    expirationTime := 0 }

/-- Key of the `transactions` mapping: the EIP-712 digest is modelled by the
tuple `(escrowId, txType, nonce)` it hashes (keccak256 assumed injective). -/
abbrev TxHash := Nat × TransactionType × Nat

/-- `struct Transaction` — the per-digest approval record.  The inner
`mapping(address => bool) approvals` is the list of addresses mapped to
`true`. -/
structure Transaction where
  escrowId : Nat
  txType : TransactionType
  nonce : Nat
  approvals : List Addr
  approvalCount : Nat
deriving DecidableEq

/-- Zero-initialised `Transaction` struct (mapping default). -/
def defaultTransaction : Transaction :=
  { escrowId := 0, txType := TransactionType.CompleteEscrow, nonce := 0,
    approvals := [], approvalCount := 0 }

/-- Contract storage of `SignatureEscrow`. -/
structure SEState where
  escrows : List (Nat × Escrow)
  transactions : List (TxHash × Transaction)
  userNonces : List (Addr × Nat)
  escrowIdCounter : Nat
  owner : Addr
deriving DecidableEq

/-- `escrows[escrowId]` with mapping-default semantics. -/
def getEscrow (s : SEState) (escrowId : Nat) : Escrow :=
  (alookup s.escrows escrowId).getD defaultEscrow

/-- `transactions[txHash]` with mapping-default semantics. -/
def getTx (s : SEState) (h : TxHash) : Transaction :=
  (alookup s.transactions h).getD defaultTransaction

/-- `userNonces[user]` with mapping-default semantics. -/
def nonceOf (s : SEState) (a : Addr) : Nat :=
  (alookup s.userNonces a).getD 0

/-- Idealised ECDSA signature: carries the signing key and the signed digest. -/
structure Sig where
  signedBy : Addr
  digest : TxHash
deriving DecidableEq

/-- Idealised `ECDSA.recover`: yields the signing key when the digest
matches, and an unrelated (zero) address otherwise. -/
def ecrecover (digest : TxHash) (sig : Sig) : Addr :=
  if sig.digest = digest then sig.signedBy else 0

/-- Revert reasons of the contract, one per distinct `require` string. -/
inductive Err where
  | InvalidNftContract
  | InvalidPrice
  | ArbiterNotProvided
  | InvalidThreshold
  | NotNftOwner
  | NftTransferFailed
  | EscrowNotFound
  | InvalidState
  | SellerCannotBeBuyer
  | BuyerAlreadyAssigned
  | Expired
  | NotSeller
  | InvalidArbiter
  | ArbiterIsParty
  | ArbiterAlreadyAssigned
  | NotBuyer
  | TokenTransferFailed
  | NotAuthorized
  | InvalidNonce
  | InvalidSignature
  | NotOwner
deriving DecidableEq

/-- Per-transaction external environment. -/
structure Env where
  now : Nat
  nftOk : Bool
  erc20Ok : Bool
deriving DecidableEq

/-- Custody-transfer events, tagged with the escrow id they concern.
`nftToEscrow`/`tokenToEscrow` pull custody in, `nftFromEscrow` /
`tokenFromEscrow` release it to the given recipient. -/
inductive Transfer where
  | nftToEscrow (escrowId : Nat) (nftContract : Addr) (tokenId : Nat) (src : Addr)
  | nftFromEscrow (escrowId : Nat) (nftContract : Addr) (tokenId : Nat) (dst : Addr)
  | tokenToEscrow (escrowId : Nat) (token : Addr) (src : Addr) (amount : Nat)
  | tokenFromEscrow (escrowId : Nat) (token : Addr) (dst : Addr) (amount : Nat)
deriving DecidableEq

/-- The escrow id a custody event concerns. -/
def Transfer.eid : Transfer → Nat
  | Transfer.nftToEscrow e _ _ _ => e
  | Transfer.nftFromEscrow e _ _ _ => e
  | Transfer.tokenToEscrow e _ _ _ => e
  | Transfer.tokenFromEscrow e _ _ _ => e

/-- `address public constant DEFAULT_PAYMENT_TOKEN` (BCOP on Base Sepolia). -/
def DEFAULT_PAYMENT_TOKEN : Addr := 0x34Fa1aED9f275451747f3e9B5377608cCF96A458

/-- `createEscrow` (source lines 583-648).  `ownerOf` is the external
`IERC721.ownerOf` view; the final `nft.transferFrom` pulling the NFT into
custody reverts when `env.nftOk` is false.  Returns the new escrow id. -/
def createEscrow (ownerOf : Addr → Nat → Addr) (env : Env) (sender : Addr)
    (nftContract : Addr) (tokenId : Nat) (paymentToken : Addr) (price : Nat)
    (arbiter : Addr) (requireBuyer requireSeller requireArbiter : Bool)
    (threshold : Nat) (expirationTime : Nat) (s : SEState) :
    Except Err (SEState × List Transfer × Nat) :=
  if nftContract = 0 then Except.error Err.InvalidNftContract
  else if price = 0 then Except.error Err.InvalidPrice
  else if requireArbiter ∧ arbiter = 0 then Except.error Err.ArbiterNotProvided
  else
    let maxSigners : Nat :=
      (if requireBuyer then 1 else 0) + (if requireSeller then 1 else 0) +
        (if requireArbiter then 1 else 0)
    if ¬ (0 < threshold ∧ threshold ≤ maxSigners) then Except.error Err.InvalidThreshold
    else if ¬ (ownerOf nftContract tokenId = sender) then Except.error Err.NotNftOwner
    else if env.nftOk = false then Except.error Err.NftTransferFailed
    else
      let escrowId := s.escrowIdCounter + 1
      let payTok := if paymentToken = 0 then DEFAULT_PAYMENT_TOKEN else paymentToken
      let e : Escrow :=
        { seller := sender, nftContract := nftContract, tokenId := tokenId,
          paymentToken := payTok, price := price, buyer := 0, arbiter := arbiter,
          state := EscrowState.Created,
          requiredSignatures :=
            { requireBuyer := requireBuyer, requireSeller := requireSeller,
              requireArbiter := requireArbiter, threshold := threshold },
          expirationTime := expirationTime }
      Except.ok ({ s with escrows := aupdate s.escrows escrowId e,
                          escrowIdCounter := escrowId },
        [Transfer.nftToEscrow escrowId nftContract tokenId sender], escrowId)

/-- `assignAsBuyer` (source lines 654-671). -/
def assignAsBuyer (env : Env) (sender : Addr) (escrowId : Nat) (s : SEState) :
    Except Err (SEState × List Transfer) :=
  let e := getEscrow s escrowId
  if e.seller = 0 then Except.error Err.EscrowNotFound
  else if ¬ (e.state = EscrowState.Created) then Except.error Err.InvalidState
  else if e.seller = sender then Except.error Err.SellerCannotBeBuyer
  else if ¬ (e.buyer = 0) then Except.error Err.BuyerAlreadyAssigned
  else if e.expirationTime > 0 ∧ env.now > e.expirationTime then Except.error Err.Expired
  else
    Except.ok ({ s with escrows := aupdate s.escrows escrowId ({ e with buyer := sender }) }, [])

/-- `assignArbiter` (source lines 678-698). -/
def assignArbiter (env : Env) (sender : Addr) (escrowId : Nat) (arbiter : Addr)
    (s : SEState) : Except Err (SEState × List Transfer) :=
  let e := getEscrow s escrowId
  if e.seller = 0 then Except.error Err.EscrowNotFound
  else if ¬ (e.state = EscrowState.Created ∨ e.state = EscrowState.BuyerDeposited) then
    Except.error Err.InvalidState
  else if ¬ (sender = e.seller) then Except.error Err.NotSeller
  else if arbiter = 0 then Except.error Err.InvalidArbiter
  else if arbiter = e.seller ∨ arbiter = e.buyer then Except.error Err.ArbiterIsParty
  else if ¬ (e.arbiter = 0) then Except.error Err.ArbiterAlreadyAssigned
  else if e.expirationTime > 0 ∧ env.now > e.expirationTime then Except.error Err.Expired
  else
    Except.ok ({ s with escrows := aupdate s.escrows escrowId ({ e with arbiter := arbiter }) }, [])

/-- `depositPayment` (source lines 704-731).  The ERC-20 `transferFrom`
return value is checked by a `require`, so a `false` return reverts. -/
def depositPayment (env : Env) (sender : Addr) (escrowId : Nat) (s : SEState) :
    Except Err (SEState × List Transfer) :=
  let e := getEscrow s escrowId
  if e.seller = 0 then Except.error Err.EscrowNotFound
  else if ¬ (e.state = EscrowState.Created) then Except.error Err.InvalidState
  else if ¬ (e.buyer = sender) then Except.error Err.NotBuyer
  else if e.expirationTime > 0 ∧ env.now > e.expirationTime then Except.error Err.Expired
  else if env.erc20Ok = false then Except.error Err.TokenTransferFailed
  else
    let st := if e.requiredSignatures.threshold = 0
      then EscrowState.ReadyForExecution else EscrowState.BuyerDeposited
    Except.ok ({ s with escrows := aupdate s.escrows escrowId ({ e with state := st }) },
      [Transfer.tokenToEscrow escrowId e.paymentToken sender e.price])

/-- `_completeEscrow` (source lines 897-910).  The ERC-721 `transferFrom`
reverts on failure, but the ERC-20 `transfer` return value is NOT checked:
a `false` return is silently ignored (no token event is emitted, yet the
state still moves to `Completed`). -/
def _completeEscrow (env : Env) (escrowId : Nat) (s : SEState) :
    Except Err (SEState × List Transfer) :=
  let e := getEscrow s escrowId
  if env.nftOk = false then Except.error Err.NftTransferFailed
  else
    Except.ok
      ({ s with
          escrows := aupdate s.escrows escrowId ({ e with state := EscrowState.Completed }) },
      Transfer.nftFromEscrow escrowId e.nftContract e.tokenId e.buyer ::
        (if env.erc20Ok then
          [Transfer.tokenFromEscrow escrowId e.paymentToken e.seller e.price]
        else []))

/-- `_cancelEscrow` (source lines 917-932).  The payment refund is attempted
only when the state is `BuyerDeposited`; its ERC-20 return value is NOT
checked. -/
def _cancelEscrow (env : Env) (escrowId : Nat) (_reason : String) (s : SEState) :
    Except Err (SEState × List Transfer) :=
  let e := getEscrow s escrowId
  if env.nftOk = false then Except.error Err.NftTransferFailed
  else
    Except.ok
      ({ s with
          escrows := aupdate s.escrows escrowId ({ e with state := EscrowState.Cancelled }) },
      Transfer.nftFromEscrow escrowId e.nftContract e.tokenId e.seller ::
        (if e.state = EscrowState.BuyerDeposited ∧ env.erc20Ok then
          [Transfer.tokenFromEscrow escrowId e.paymentToken e.buyer e.price]
        else []))

/-- The authorization test shared by both approval entry points
(source lines 775-782 and 845-852). -/
def isAuthorizedSigner (e : Escrow) (a : Addr) : Bool :=
  (e.requiredSignatures.requireSeller && a == e.seller) ||
  (e.requiredSignatures.requireBuyer && a == e.buyer) ||
  (e.requiredSignatures.requireArbiter && a == e.arbiter)

/-- The approval-record block both entry points share verbatim
(source lines 788-815 and 863-890): fetch `transactions[txHash]`,
initialise it when its stored `nonce` is `0` (which also resets
`approvalCount` but cannot reset the inner `approvals` mapping), record the
signer if not yet recorded, and execute the resolution when the count
reaches the escrow's threshold.  `s` already contains the caller's nonce
increment performed just before this block. -/
def initTx (escrowId : Nat) (txType : TransactionType) (nonce : Nat)
    (t0 : Transaction) : Transaction :=
  if t0.nonce = 0 then
    { t0 with escrowId := escrowId, txType := txType, nonce := nonce, approvalCount := 0 }
  else t0

/-- Threshold-reached dispatch (source lines 807-814 and 882-889). -/
def execResolution (env : Env) (escrowId : Nat) (txType : TransactionType)
    (s : SEState) : Except Err (SEState × List Transfer) :=
  match txType with
  | TransactionType.CompleteEscrow => _completeEscrow env escrowId s
  | TransactionType.CancelEscrow => _cancelEscrow env escrowId "Cancelled by signers" s

def applyApproval (env : Env) (escrowId : Nat) (txType : TransactionType)
    (signer : Addr) (nonce : Nat) (s : SEState) :
    Except Err (SEState × List Transfer) :=
  let key : TxHash := (escrowId, txType, nonce)
  let t1 := initTx escrowId txType nonce (getTx s key)
  if signer ∈ t1.approvals then
    Except.ok ({ s with transactions := aupdate s.transactions key t1 }, [])
  else
    let t2 := { t1 with approvals := signer :: t1.approvals,
                        approvalCount := t1.approvalCount + 1 }
    let s2 := { s with transactions := aupdate s.transactions key t2 }
    if (getEscrow s escrowId).requiredSignatures.threshold ≤ t2.approvalCount then
      execResolution env escrowId txType s2
    else Except.ok (s2, [])

/-- `approveTransaction` (source lines 762-816): the direct on-chain
approval path.  Note `uint256 nonce = userNonces[msg.sender]++` — the
caller's CURRENT nonce keys the record and the stored nonce is bumped. -/
def approveTransaction (env : Env) (sender : Addr) (escrowId : Nat)
    (txType : TransactionType) (s : SEState) : Except Err (SEState × List Transfer) :=
  let e := getEscrow s escrowId
  if e.seller = 0 then Except.error Err.EscrowNotFound
  else if ¬ (e.state = EscrowState.BuyerDeposited) then Except.error Err.InvalidState
  else if e.expirationTime > 0 ∧ env.now > e.expirationTime then
    _cancelEscrow env escrowId "Escrow expired" s
  else if ¬ (isAuthorizedSigner e sender = true) then Except.error Err.NotAuthorized
  else
    let nonce := nonceOf s sender
    let s1 := { s with userNonces := aupdate s.userNonces sender (nonce + 1) }
    applyApproval env escrowId txType sender nonce s1

/-- `approveTransactionWithSignature` (source lines 826-891): the off-chain
signature approval path.  Requires strict equality with the signer's stored
nonce, verifies the signature against the digest of
`(escrowId, txType, nonce)`, then increments the stored nonce
unconditionally before recording the approval. -/
def approveTransactionWithSignature (env : Env) (_sender : Addr) (escrowId : Nat)
    (txType : TransactionType) (signer : Addr) (nonce : Nat) (signature : Sig)
    (s : SEState) : Except Err (SEState × List Transfer) :=
  let e := getEscrow s escrowId
  if e.seller = 0 then Except.error Err.EscrowNotFound
  else if ¬ (e.state = EscrowState.BuyerDeposited) then Except.error Err.InvalidState
  else if e.expirationTime > 0 ∧ env.now > e.expirationTime then
    _cancelEscrow env escrowId "Escrow expired" s
  else if ¬ (isAuthorizedSigner e signer = true) then Except.error Err.NotAuthorized
  else if ¬ (nonce = nonceOf s signer) then Except.error Err.InvalidNonce
  else if ¬ (ecrecover (escrowId, txType, nonce) signature = signer) then
    Except.error Err.InvalidSignature
  else
    let s1 := { s with userNonces := aupdate s.userNonces signer (nonceOf s signer + 1) }
    applyApproval env escrowId txType signer nonce s1

/-- `adminCancelEscrow` (source lines 939-946), guarded by `onlyOwner`. -/
def adminCancelEscrow (env : Env) (sender : Addr) (escrowId : Nat) (reason : String)
    (s : SEState) : Except Err (SEState × List Transfer) :=
  if ¬ (sender = s.owner) then Except.error Err.NotOwner
  else
    let e := getEscrow s escrowId
    if e.seller = 0 then Except.error Err.EscrowNotFound
    else if e.state = EscrowState.Completed ∨ e.state = EscrowState.Cancelled then
      Except.error Err.InvalidState
    else _cancelEscrow env escrowId reason s

/-- The state-mutating external entry points of the contract, each carrying
its transaction's environment. -/
inductive Op where
  | create (ownerOf : Addr → Nat → Addr) (env : Env) (sender : Addr)
      (nftContract : Addr) (tokenId : Nat) (paymentToken : Addr) (price : Nat)
      (arbiter : Addr) (requireBuyer requireSeller requireArbiter : Bool)
      (threshold : Nat) (expirationTime : Nat)
  | assignBuyerOp (env : Env) (sender : Addr) (escrowId : Nat)
  | assignArbiterOp (env : Env) (sender : Addr) (escrowId : Nat) (arbiter : Addr)
  | deposit (env : Env) (sender : Addr) (escrowId : Nat)
  | approve (env : Env) (sender : Addr) (escrowId : Nat) (txType : TransactionType)
  | approveSig (env : Env) (sender : Addr) (escrowId : Nat) (txType : TransactionType)
      (signer : Addr) (nonce : Nat) (signature : Sig)
  | adminCancel (env : Env) (sender : Addr) (escrowId : Nat) (reason : String)

/-- One external transaction against the contract. -/
def execOp : Op → SEState → Except Err (SEState × List Transfer)
  | Op.create f env sender c t p pr a rb rs ra th ex, s =>
      match createEscrow f env sender c t p pr a rb rs ra th ex s with
      | Except.ok (s', evs, _) => Except.ok (s', evs)
      | Except.error err => Except.error err
  | Op.assignBuyerOp env sender escrowId, s => assignAsBuyer env sender escrowId s
  | Op.assignArbiterOp env sender escrowId arbiter, s =>
      assignArbiter env sender escrowId arbiter s
  | Op.deposit env sender escrowId, s => depositPayment env sender escrowId s
  | Op.approve env sender escrowId txType, s => approveTransaction env sender escrowId txType s
  | Op.approveSig env sender escrowId txType signer nonce signature, s =>
      approveTransactionWithSignature env sender escrowId txType signer nonce signature s
  | Op.adminCancel env sender escrowId reason, s => adminCancelEscrow env sender escrowId reason s

/-- Storage right after deployment by `deployer` (the `Ownable` owner). -/
def initialState (deployer : Addr) : SEState :=
  { escrows := [], transactions := [], userNonces := [], escrowIdCounter := 0,
    owner := deployer }

/-- States reachable from deployment through successful transactions
(reverted transactions leave no trace). -/
inductive Reachable (deployer : Addr) : SEState → Prop where
  | init : Reachable deployer (initialState deployer)
  | step {s s' : SEState} {op : Op} {evs : List Transfer} :
      Reachable deployer s → execOp op s = Except.ok (s', evs) → Reachable deployer s'

/-- All events in `evs` concern escrow `eid`. -/
def evsTagged (eid : Nat) (evs : List Transfer) : Prop :=
  ∀ ev ∈ evs, Transfer.eid ev = eid

/-- Invariant of every reachable storage: every stored escrow has a
positive threshold, is never in `ReadyForExecution`, has a nonzero seller
once it has left `Created`, and its id lies within the id counter. -/
def InvAll (s : SEState) : Prop :=
  ∀ id e, alookup s.escrows id = some e →
    1 ≤ e.requiredSignatures.threshold ∧
    e.state ≠ EscrowState.ReadyForExecution ∧
    (e.state ≠ EscrowState.Created → e.seller ≠ 0) ∧
    1 ≤ id ∧ id ≤ s.escrowIdCounter

def c1Escrow : Escrow :=
  { seller := 10, nftContract := 5, tokenId := 7, paymentToken := 3, price := 1000000,
    buyer := 20, arbiter := 0, state := EscrowState.BuyerDeposited,
    requiredSignatures :=
      { requireBuyer := true, requireSeller := true, requireArbiter := false, threshold := 2 },
    expirationTime := 0 }

def c1S0 : SEState :=
  { escrows := [(1, c1Escrow)], transactions := [], userNonces := [],
    escrowIdCounter := 1, owner := 99 }

def c1Env : Env := { now := 0, nftOk := true, erc20Ok := true }

def c1S1 : SEState :=
  { c1S0 with
    transactions := [((1, TransactionType.CompleteEscrow, 0),
      { escrowId := 1, txType := TransactionType.CompleteEscrow, nonce := 0,
        approvals := [10], approvalCount := 1 })],
    userNonces := [(10, 1)] }

def c1S2 : SEState :=
  { c1S0 with
    transactions := [((1, TransactionType.CompleteEscrow, 0),
      { escrowId := 1, txType := TransactionType.CompleteEscrow, nonce := 0,
        approvals := [20, 10], approvalCount := 1 })],
    userNonces := [(10, 1), (20, 1)] }

def c2Escrow : Escrow :=
  { seller := 10, nftContract := 5, tokenId := 7, paymentToken := 3, price := 1000000,
    buyer := 20, arbiter := 0, state := EscrowState.BuyerDeposited,
    requiredSignatures :=
      { requireBuyer := true, requireSeller := true, requireArbiter := false, threshold := 2 },
    expirationTime := 0 }

def c2S0 : SEState :=
  { escrows := [(1, c2Escrow)], transactions := [], userNonces := [],
    escrowIdCounter := 1, owner := 99 }

def c2Env : Env := { now := 0, nftOk := true, erc20Ok := true }

def c2S1 : SEState :=
  { c2S0 with
    transactions := [((1, TransactionType.CompleteEscrow, 0),
      { escrowId := 1, txType := TransactionType.CompleteEscrow, nonce := 0,
        approvals := [10], approvalCount := 1 })],
    userNonces := [(10, 1)] }

def c3Escrow : Escrow :=
  { seller := 10, nftContract := 5, tokenId := 7, paymentToken := 3, price := 1000000,
    buyer := 20, arbiter := 0, state := EscrowState.BuyerDeposited,
    requiredSignatures :=
      { requireBuyer := true, requireSeller := true, requireArbiter := false, threshold := 2 },
    expirationTime := 0 }

def c3S0 : SEState :=
  { escrows := [(1, c3Escrow)], transactions := [], userNonces := [],
    escrowIdCounter := 1, owner := 99 }

def c3Env : Env := { now := 0, nftOk := true, erc20Ok := true }

def c3S1 : SEState :=
  { c3S0 with
    transactions := [((1, TransactionType.CompleteEscrow, 0),
      { escrowId := 1, txType := TransactionType.CompleteEscrow, nonce := 0,
        approvals := [10], approvalCount := 1 })],
    userNonces := [(10, 1)] }

def c3S2 : SEState :=
  { c3S0 with
    transactions := [((1, TransactionType.CompleteEscrow, 0),
      { escrowId := 1, txType := TransactionType.CompleteEscrow, nonce := 0,
        approvals := [10], approvalCount := 1 }),
      ((1, TransactionType.CompleteEscrow, 1),
      { escrowId := 1, txType := TransactionType.CompleteEscrow, nonce := 1,
        approvals := [10], approvalCount := 1 })],
    userNonces := [(10, 2)] }

def c3WTx : Transaction :=
  { escrowId := 1, txType := TransactionType.CompleteEscrow, nonce := 5,
    approvals := [10], approvalCount := 1 }

def c3WS : SEState :=
  { escrows := [(1, c3Escrow)],
    transactions := [((1, TransactionType.CompleteEscrow, 5), c3WTx)],
    userNonces := [(10, 6)], escrowIdCounter := 1, owner := 99 }

def c4Escrow : Escrow :=
  { seller := 10, nftContract := 5, tokenId := 7, paymentToken := 3, price := 1000000,
    buyer := 0, arbiter := 0, state := EscrowState.Created,
    requiredSignatures :=
      { requireBuyer := true, requireSeller := true, requireArbiter := false, threshold := 2 },
    expirationTime := 100 }

def c4S : SEState :=
  { escrows := [(1, c4Escrow)], transactions := [], userNonces := [],
    escrowIdCounter := 1, owner := 99 }

def c4Env : Env := { now := 200, nftOk := true, erc20Ok := true }

def c4bEscrow : Escrow :=
  { seller := 10, nftContract := 5, tokenId := 7, paymentToken := 3, price := 1000000,
    buyer := 20, arbiter := 0, state := EscrowState.BuyerDeposited,
    requiredSignatures :=
      { requireBuyer := true, requireSeller := true, requireArbiter := false, threshold := 2 },
    expirationTime := 100 }

def c4bS : SEState :=
  { escrows := [(1, c4bEscrow)], transactions := [], userNonces := [],
    escrowIdCounter := 1, owner := 99 }

def c5S1 : SEState :=
  { escrows := [(1,
      { seller := 10, nftContract := 5, tokenId := 7, paymentToken := 3, price := 100,
        buyer := 0, arbiter := 10, state := EscrowState.Created,
        requiredSignatures :=
          { requireBuyer := true, requireSeller := true, requireArbiter := true, threshold := 2 },
        expirationTime := 0 })],
    transactions := [], userNonces := [], escrowIdCounter := 1, owner := 99 }

def c5wEscrow : Escrow :=
  { seller := 10, nftContract := 5, tokenId := 7, paymentToken := 3, price := 1000000,
    buyer := 0, arbiter := 0, state := EscrowState.Created,
    requiredSignatures :=
      { requireBuyer := true, requireSeller := true, requireArbiter := false, threshold := 2 },
    expirationTime := 0 }

def c5wS : SEState :=
  { escrows := [(1, c5wEscrow)], transactions := [], userNonces := [],
    escrowIdCounter := 1, owner := 99 }

def c5wS1 : SEState :=
  { c5wS with escrows := [(1, { c5wEscrow with buyer := 20 })] }

def c6Escrow : Escrow :=
  { seller := 10, nftContract := 5, tokenId := 7, paymentToken := 3, price := 1000000,
    buyer := 20, arbiter := 0, state := EscrowState.BuyerDeposited,
    requiredSignatures :=
      { requireBuyer := false, requireSeller := true, requireArbiter := false, threshold := 1 },
    expirationTime := 0 }

def c6S0 : SEState :=
  { escrows := [(1, c6Escrow)], transactions := [], userNonces := [],
    escrowIdCounter := 1, owner := 99 }

def c6EnvFail : Env := { now := 0, nftOk := true, erc20Ok := false }

def c6S1 : SEState :=
  { escrows := [(1, { c6Escrow with state := EscrowState.Completed })],
    transactions := [((1, TransactionType.CompleteEscrow, 0),
      { escrowId := 1, txType := TransactionType.CompleteEscrow, nonce := 0,
        approvals := [10], approvalCount := 1 })],
    userNonces := [(10, 1)], escrowIdCounter := 1, owner := 99 }

def c6DepEscrow : Escrow := { c6Escrow with state := EscrowState.Created }

def c6DepS : SEState :=
  { escrows := [(1, c6DepEscrow)], transactions := [], userNonces := [],
    escrowIdCounter := 1, owner := 99 }

def c7Escrow : Escrow :=
  { seller := 10, nftContract := 5, tokenId := 7, paymentToken := 3, price := 1000000,
    buyer := 20, arbiter := 0, state := EscrowState.BuyerDeposited,
    requiredSignatures :=
      { requireBuyer := true, requireSeller := true, requireArbiter := false, threshold := 2 },
    expirationTime := 0 }

def c7S : SEState :=
  { escrows := [(1, c7Escrow)], transactions := [], userNonces := [],
    escrowIdCounter := 1, owner := 99 }

def c7Env : Env := { now := 0, nftOk := true, erc20Ok := true }

/-- Creation errors that reject the configuration before any custody is
touched (these are the `require` failures preceding the NFT pull; the NFT
pull itself can only fail as `NotNftOwner`/`NftTransferFailed`, which are
not configuration errors). -/
def isConfigCreationError : Except Err (SEState × List Transfer × Nat) → Prop
  | Except.error Err.InvalidNftContract => True
  | Except.error Err.InvalidPrice => True
  | Except.error Err.ArbiterNotProvided => True
  | Except.error Err.InvalidThreshold => True
  | _ => False

/-- Eligible-role count as the claim words it: buyer and seller eligibility
flags count directly, and arbiter eligibility counts only when a non-null
arbiter is provided.  (The source counts `requireArbiter` unconditionally
but separately requires a nonzero arbiter, so the two notions agree on all
inputs that pass creation.) -/
def eligibleCountSpec (rb rs ra : Bool) (arbiter : Addr) : Nat :=
  (if rb then 1 else 0) + (if rs then 1 else 0) +
    (if ra = true ∧ arbiter ≠ 0 then 1 else 0)

def c9Env : Env := { now := 0, nftOk := true, erc20Ok := true }

def c9Op1 : Op := Op.create (fun _ _ => 10) c9Env 10 5 7 3 1000000 0 true true false 2 0

def c9E1 : Escrow :=
  { seller := 10, nftContract := 5, tokenId := 7, paymentToken := 3, price := 1000000,
    buyer := 0, arbiter := 0, state := EscrowState.Created,
    requiredSignatures :=
      { requireBuyer := true, requireSeller := true, requireArbiter := false, threshold := 2 },
    expirationTime := 0 }

def c9S1 : SEState :=
  { escrows := [(1, c9E1)], transactions := [], userNonces := [],
    escrowIdCounter := 1, owner := 99 }

def c9Op2 : Op := Op.adminCancel c9Env 99 1 "emergency"

def c9E2 : Escrow := { c9E1 with state := EscrowState.Cancelled }

def c9S2 : SEState :=
  { escrows := [(1, c9E2)], transactions := [], userNonces := [],
    escrowIdCounter := 1, owner := 99 }

def c10Env : Env := { now := 0, nftOk := true, erc20Ok := true }

def c10Op : Op := Op.create (fun _ _ => 10) c10Env 10 5 7 3 1000000 0 true true false 2 0

def c10E : Escrow :=
  { seller := 10, nftContract := 5, tokenId := 7, paymentToken := 3, price := 1000000,
    buyer := 0, arbiter := 0, state := EscrowState.Created,
    requiredSignatures :=
      { requireBuyer := true, requireSeller := true, requireArbiter := false, threshold := 2 },
    expirationTime := 0 }

def c10S1 : SEState :=
  { escrows := [(1, c10E)], transactions := [], userNonces := [],
    escrowIdCounter := 1, owner := 99 }

/-! ### Theorems -/

theorem alookup_aupdate_self {α β : Type} [DecidableEq α]
    (l : List (α × β)) (k : α) (v : β) : alookup (aupdate l k v) k = some v := by
  induction l with
  | nil => simp [aupdate, alookup]
  | cons hd tl ih =>
      obtain ⟨k', w⟩ := hd
      by_cases h : k' = k
      · simp [aupdate, h, alookup]
      · simp [aupdate, h, alookup, ih]

theorem alookup_aupdate_ne {α β : Type} [DecidableEq α]
    (l : List (α × β)) (k k' : α) (v : β) (h : k' ≠ k) :
    alookup (aupdate l k v) k' = alookup l k' := by
  induction l with
  | nil =>
      have hne : ¬ k = k' := fun hkk => h hkk.symm
      simp [aupdate, alookup, hne]
  | cons hd tl ih =>
      obtain ⟨k₀, w⟩ := hd
      by_cases h0 : k₀ = k
      · subst h0
        have hne : ¬ k₀ = k' := fun hkk => h (hkk.symm)
        simp [aupdate, alookup, hne]
      · simp [aupdate, h0, alookup, ih]

theorem alookup_aupdate_cases {α β : Type} [DecidableEq α]
    (l : List (α × β)) (k id : α) (v w : β)
    (h : alookup (aupdate l k v) id = some w) :
    (id = k ∧ w = v) ∨ (id ≠ k ∧ alookup l id = some w) := by
  by_cases hik : id = k
  · subst hik
    rw [alookup_aupdate_self] at h
    exact Or.inl ⟨rfl, (Option.some.injEq _ _ ▸ h).symm⟩
  · rw [alookup_aupdate_ne _ _ _ _ hik] at h
    exact Or.inr ⟨hik, h⟩

/-- An escrow whose `seller` field is nonzero is genuinely present in the
`escrows` mapping (the default struct has `seller = 0`). -/
theorem getEscrow_lookup_of_seller_ne {s : SEState} {id : Nat}
    (h : (getEscrow s id).seller ≠ 0) :
    alookup s.escrows id = some (getEscrow s id) := by
  unfold getEscrow at *
  cases hl : alookup s.escrows id with
  | none => rw [hl] at h; simp [defaultEscrow] at h
  | some e => simp [hl]

theorem cancelEscrow_shape {env : Env} {eid : Nat} {r : String} {s s' : SEState}
    {evs : List Transfer}
    (h : _cancelEscrow env eid r s = Except.ok (s', evs)) :
    s' = { s with
        escrows := aupdate s.escrows eid ({ getEscrow s eid with state := EscrowState.Cancelled }) } ∧
      evsTagged eid evs := by
  unfold _cancelEscrow at h
  split at h
  · exact absurd h (by simp)
  · simp only [Except.ok.injEq, Prod.mk.injEq] at h
    obtain ⟨hs, hevs⟩ := h
    refine ⟨hs.symm, ?_⟩
    intro ev hev
    rw [← hevs] at hev
    rcases List.mem_cons.mp hev with h1 | h1
    · rw [h1]; rfl
    · split at h1
      · simp at h1; rw [h1]; rfl
      · simp at h1

theorem completeEscrow_shape {env : Env} {eid : Nat} {s s' : SEState}
    {evs : List Transfer}
    (h : _completeEscrow env eid s = Except.ok (s', evs)) :
    s' = { s with
        escrows := aupdate s.escrows eid ({ getEscrow s eid with state := EscrowState.Completed }) } ∧
      evsTagged eid evs := by
  unfold _completeEscrow at h
  split at h
  · exact absurd h (by simp)
  · simp only [Except.ok.injEq, Prod.mk.injEq] at h
    obtain ⟨hs, hevs⟩ := h
    refine ⟨hs.symm, ?_⟩
    intro ev hev
    rw [← hevs] at hev
    rcases List.mem_cons.mp hev with h1 | h1
    · rw [h1]; rfl
    · split at h1
      · simp at h1; rw [h1]; rfl
      · simp at h1

theorem execResolution_shape {env : Env} {eid : Nat} {tt : TransactionType}
    {s s' : SEState} {evs : List Transfer}
    (h : execResolution env eid tt s = Except.ok (s', evs)) :
    (s' = { s with
        escrows := aupdate s.escrows eid ({ getEscrow s eid with state := EscrowState.Completed }) } ∨
     s' = { s with
        escrows := aupdate s.escrows eid ({ getEscrow s eid with state := EscrowState.Cancelled }) }) ∧
    evsTagged eid evs := by
  cases tt with
  | CompleteEscrow =>
      simp only [execResolution] at h
      obtain ⟨hs, htag⟩ := completeEscrow_shape h
      exact ⟨Or.inl hs, htag⟩
  | CancelEscrow =>
      simp only [execResolution] at h
      obtain ⟨hs, htag⟩ := cancelEscrow_shape h
      exact ⟨Or.inr hs, htag⟩

theorem applyApproval_shape {env : Env} {eid : Nat} {tt : TransactionType} {g : Addr}
    {n : Nat} {s s' : SEState} {evs : List Transfer}
    (h : applyApproval env eid tt g n s = Except.ok (s', evs)) :
    (s'.escrows = s.escrows ∨
      s'.escrows = aupdate s.escrows eid ({ getEscrow s eid with state := EscrowState.Completed }) ∨
      s'.escrows = aupdate s.escrows eid ({ getEscrow s eid with state := EscrowState.Cancelled })) ∧
    s'.userNonces = s.userNonces ∧ s'.escrowIdCounter = s.escrowIdCounter ∧
    s'.owner = s.owner ∧ evsTagged eid evs := by
  simp only [applyApproval] at h
  by_cases hmem : g ∈ (initTx eid tt n (getTx s (eid, tt, n))).approvals
  · rw [if_pos hmem] at h
    simp only [Except.ok.injEq, Prod.mk.injEq] at h
    obtain ⟨hs, hevs⟩ := h
    rw [← hs, ← hevs]
    exact ⟨Or.inl rfl, rfl, rfl, rfl, by intro ev hev; simp at hev⟩
  · rw [if_neg hmem] at h
    by_cases hth : (getEscrow s eid).requiredSignatures.threshold ≤
        (initTx eid tt n (getTx s (eid, tt, n))).approvalCount + 1
    · rw [if_pos hth] at h
      obtain ⟨hs, htag⟩ := execResolution_shape h
      rcases hs with hs | hs
      · rw [hs]
        exact ⟨Or.inr (Or.inl rfl), rfl, rfl, rfl, htag⟩
      · rw [hs]
        exact ⟨Or.inr (Or.inr rfl), rfl, rfl, rfl, htag⟩
    · rw [if_neg hth] at h
      simp only [Except.ok.injEq, Prod.mk.injEq] at h
      obtain ⟨hs, hevs⟩ := h
      rw [← hs, ← hevs]
      exact ⟨Or.inl rfl, rfl, rfl, rfl, by intro ev hev; simp at hev⟩

theorem completeEscrow_ok {env : Env} (hnft : env.nftOk = true) (eid : Nat)
    (s : SEState) : ∃ s' evs, _completeEscrow env eid s = Except.ok (s', evs) := by
  obtain ⟨now, nftOk, erc⟩ := env
  simp only at hnft
  subst hnft
  exact ⟨_, _, rfl⟩

theorem cancelEscrow_ok {env : Env} (hnft : env.nftOk = true) (eid : Nat)
    (r : String) (s : SEState) :
    ∃ s' evs, _cancelEscrow env eid r s = Except.ok (s', evs) := by
  obtain ⟨now, nftOk, erc⟩ := env
  simp only at hnft
  subst hnft
  exact ⟨_, _, rfl⟩

theorem execResolution_ok {env : Env} (hnft : env.nftOk = true) (eid : Nat)
    (tt : TransactionType) (s : SEState) :
    ∃ s' evs, execResolution env eid tt s = Except.ok (s', evs) := by
  cases tt with
  | CompleteEscrow =>
      simp only [execResolution]
      exact completeEscrow_ok hnft eid s
  | CancelEscrow =>
      simp only [execResolution]
      exact cancelEscrow_ok hnft eid _ s

theorem applyApproval_ok {env : Env} (hnft : env.nftOk = true) (eid : Nat)
    (tt : TransactionType) (g : Addr) (n : Nat) (s : SEState) :
    ∃ s' evs, applyApproval env eid tt g n s = Except.ok (s', evs) := by
  simp only [applyApproval]
  by_cases hmem : g ∈ (initTx eid tt n (getTx s (eid, tt, n))).approvals
  · rw [if_pos hmem]
    exact ⟨_, _, rfl⟩
  · rw [if_neg hmem]
    by_cases hth : (getEscrow s eid).requiredSignatures.threshold ≤
        (initTx eid tt n (getTx s (eid, tt, n))).approvalCount + 1
    · rw [if_pos hth]
      exact execResolution_ok hnft eid tt _
    · rw [if_neg hth]
      exact ⟨_, _, rfl⟩

theorem approveTransaction_shape {env : Env} {g : Addr} {eid : Nat}
    {tt : TransactionType} {s s' : SEState} {evs : List Transfer}
    (h : approveTransaction env g eid tt s = Except.ok (s', evs)) :
    (getEscrow s eid).seller ≠ 0 ∧ (getEscrow s eid).state = EscrowState.BuyerDeposited ∧
    (s'.escrows = s.escrows ∨
      s'.escrows = aupdate s.escrows eid ({ getEscrow s eid with state := EscrowState.Completed }) ∨
      s'.escrows = aupdate s.escrows eid ({ getEscrow s eid with state := EscrowState.Cancelled })) ∧
    s'.escrowIdCounter = s.escrowIdCounter ∧ evsTagged eid evs := by
  simp only [approveTransaction] at h
  by_cases h1 : (getEscrow s eid).seller = 0
  · rw [if_pos h1] at h
    exact absurd h (by simp)
  · rw [if_neg h1] at h
    by_cases h2 : (getEscrow s eid).state = EscrowState.BuyerDeposited
    · rw [if_neg (not_not_intro h2)] at h
      refine ⟨h1, h2, ?_⟩
      by_cases h3 : (getEscrow s eid).expirationTime > 0 ∧
          env.now > (getEscrow s eid).expirationTime
      · rw [if_pos h3] at h
        obtain ⟨hs, htag⟩ := cancelEscrow_shape h
        rw [hs]
        exact ⟨Or.inr (Or.inr rfl), rfl, htag⟩
      · rw [if_neg h3] at h
        by_cases h4 : isAuthorizedSigner (getEscrow s eid) g = true
        · rw [if_neg (not_not_intro h4)] at h
          obtain ⟨hesc, _hnon, hcnt, _hown, htag⟩ := applyApproval_shape h
          exact ⟨hesc, hcnt, htag⟩
        · rw [if_pos h4] at h
          exact absurd h (by simp)
    · rw [if_pos h2] at h
      exact absurd h (by simp)

theorem approveSig_shape {env : Env} {caller : Addr} {eid : Nat}
    {tt : TransactionType} {g : Addr} {n : Nat} {sig : Sig} {s s' : SEState}
    {evs : List Transfer}
    (h : approveTransactionWithSignature env caller eid tt g n sig s = Except.ok (s', evs)) :
    (getEscrow s eid).seller ≠ 0 ∧ (getEscrow s eid).state = EscrowState.BuyerDeposited ∧
    (s'.escrows = s.escrows ∨
      s'.escrows = aupdate s.escrows eid ({ getEscrow s eid with state := EscrowState.Completed }) ∨
      s'.escrows = aupdate s.escrows eid ({ getEscrow s eid with state := EscrowState.Cancelled })) ∧
    s'.escrowIdCounter = s.escrowIdCounter ∧ evsTagged eid evs := by
  simp only [approveTransactionWithSignature] at h
  by_cases h1 : (getEscrow s eid).seller = 0
  · rw [if_pos h1] at h
    exact absurd h (by simp)
  · rw [if_neg h1] at h
    by_cases h2 : (getEscrow s eid).state = EscrowState.BuyerDeposited
    · rw [if_neg (not_not_intro h2)] at h
      refine ⟨h1, h2, ?_⟩
      by_cases h3 : (getEscrow s eid).expirationTime > 0 ∧
          env.now > (getEscrow s eid).expirationTime
      · rw [if_pos h3] at h
        obtain ⟨hs, htag⟩ := cancelEscrow_shape h
        rw [hs]
        exact ⟨Or.inr (Or.inr rfl), rfl, htag⟩
      · rw [if_neg h3] at h
        by_cases h4 : isAuthorizedSigner (getEscrow s eid) g = true
        · rw [if_neg (not_not_intro h4)] at h
          by_cases h5 : n = nonceOf s g
          · rw [if_neg (not_not_intro h5)] at h
            by_cases h6 : ecrecover (eid, tt, n) sig = g
            · rw [if_neg (not_not_intro h6)] at h
              obtain ⟨hesc, _hnon, hcnt, _hown, htag⟩ := applyApproval_shape h
              exact ⟨hesc, hcnt, htag⟩
            · rw [if_pos h6] at h
              exact absurd h (by simp)
          · rw [if_pos h5] at h
            exact absurd h (by simp)
        · rw [if_pos h4] at h
          exact absurd h (by simp)
    · rw [if_pos h2] at h
      exact absurd h (by simp)

theorem createEscrow_shape {f : Addr → Nat → Addr} {env : Env} {sender : Addr}
    {c : Addr} {t : Nat} {p : Addr} {pr : Nat} {a : Addr} {rb rs ra : Bool}
    {th ex : Nat} {s s' : SEState} {evs : List Transfer} {rid : Nat}
    (h : createEscrow f env sender c t p pr a rb rs ra th ex s = Except.ok (s', evs, rid)) :
    rid = s.escrowIdCounter + 1 ∧
    0 < th ∧
    th ≤ (if rb then 1 else 0) + (if rs then 1 else 0) + (if ra then 1 else 0) ∧
    (ra = true → a ≠ 0) ∧
    s'.escrowIdCounter = rid ∧
    s'.escrows = aupdate s.escrows rid
      ({ seller := sender, nftContract := c, tokenId := t,
         paymentToken := if p = 0 then DEFAULT_PAYMENT_TOKEN else p, price := pr,
         buyer := 0, arbiter := a, state := EscrowState.Created,
         requiredSignatures :=
           { requireBuyer := rb, requireSeller := rs, requireArbiter := ra, threshold := th },
         expirationTime := ex }) ∧
    evs = [Transfer.nftToEscrow rid c t sender] := by
  simp only [createEscrow] at h
  by_cases h1 : c = 0
  · rw [if_pos h1] at h
    exact absurd h (by simp)
  · rw [if_neg h1] at h
    by_cases h2 : pr = 0
    · rw [if_pos h2] at h
      exact absurd h (by simp)
    · rw [if_neg h2] at h
      by_cases h3 : ra = true ∧ a = 0
      · rw [if_pos h3] at h
        exact absurd h (by simp)
      · rw [if_neg h3] at h
        by_cases h4 : 0 < th ∧
            th ≤ (if rb then 1 else 0) + (if rs then 1 else 0) + (if ra then 1 else 0)
        · rw [if_neg (not_not_intro h4)] at h
          by_cases h5 : f c t = sender
          · rw [if_neg (not_not_intro h5)] at h
            by_cases h6 : env.nftOk = false
            · rw [if_pos h6] at h
              exact absurd h (by simp)
            · rw [if_neg h6] at h
              simp only [Except.ok.injEq, Prod.mk.injEq] at h
              obtain ⟨hs, hevs, hrid⟩ := h
              subst hrid
              refine ⟨rfl, h4.1, h4.2, ?_, ?_, ?_, hevs.symm⟩
              · intro hra ha0
                exact h3 ⟨hra, ha0⟩
              · rw [← hs]
              · rw [← hs]
          · rw [if_pos h5] at h
            exact absurd h (by simp)
        · rw [if_pos h4] at h
          exact absurd h (by simp)

theorem assignAsBuyer_shape {env : Env} {g : Addr} {eid : Nat} {s s' : SEState}
    {evs : List Transfer}
    (h : assignAsBuyer env g eid s = Except.ok (s', evs)) :
    (getEscrow s eid).seller ≠ 0 ∧ (getEscrow s eid).state = EscrowState.Created ∧
    (getEscrow s eid).seller ≠ g ∧ (getEscrow s eid).buyer = 0 ∧
    s' = { s with escrows := aupdate s.escrows eid ({ getEscrow s eid with buyer := g }) } ∧
    evs = [] := by
  simp only [assignAsBuyer] at h
  by_cases h1 : (getEscrow s eid).seller = 0
  · rw [if_pos h1] at h
    exact absurd h (by simp)
  · rw [if_neg h1] at h
    by_cases h2 : (getEscrow s eid).state = EscrowState.Created
    · rw [if_neg (not_not_intro h2)] at h
      by_cases h3 : (getEscrow s eid).seller = g
      · rw [if_pos h3] at h
        exact absurd h (by simp)
      · rw [if_neg h3] at h
        by_cases h4 : (getEscrow s eid).buyer = 0
        · rw [if_neg (not_not_intro h4)] at h
          by_cases h5 : (getEscrow s eid).expirationTime > 0 ∧
              env.now > (getEscrow s eid).expirationTime
          · rw [if_pos h5] at h
            exact absurd h (by simp)
          · rw [if_neg h5] at h
            simp only [Except.ok.injEq, Prod.mk.injEq] at h
            obtain ⟨hs, hevs⟩ := h
            exact ⟨h1, h2, h3, h4, hs.symm, hevs.symm⟩
        · rw [if_pos h4] at h
          exact absurd h (by simp)
    · rw [if_pos h2] at h
      exact absurd h (by simp)

theorem assignArbiter_shape {env : Env} {g : Addr} {eid : Nat} {arb : Addr}
    {s s' : SEState} {evs : List Transfer}
    (h : assignArbiter env g eid arb s = Except.ok (s', evs)) :
    (getEscrow s eid).seller ≠ 0 ∧
    ((getEscrow s eid).state = EscrowState.Created ∨
      (getEscrow s eid).state = EscrowState.BuyerDeposited) ∧
    g = (getEscrow s eid).seller ∧ arb ≠ 0 ∧
    ¬(arb = (getEscrow s eid).seller ∨ arb = (getEscrow s eid).buyer) ∧
    (getEscrow s eid).arbiter = 0 ∧
    s' = { s with escrows := aupdate s.escrows eid ({ getEscrow s eid with arbiter := arb }) } ∧
    evs = [] := by
  simp only [assignArbiter] at h
  by_cases h1 : (getEscrow s eid).seller = 0
  · rw [if_pos h1] at h
    exact absurd h (by simp)
  · rw [if_neg h1] at h
    by_cases h2 : (getEscrow s eid).state = EscrowState.Created ∨
        (getEscrow s eid).state = EscrowState.BuyerDeposited
    · rw [if_neg (not_not_intro h2)] at h
      by_cases h3 : g = (getEscrow s eid).seller
      · rw [if_neg (not_not_intro h3)] at h
        by_cases h4 : arb = 0
        · rw [if_pos h4] at h
          exact absurd h (by simp)
        · rw [if_neg h4] at h
          by_cases h5 : arb = (getEscrow s eid).seller ∨ arb = (getEscrow s eid).buyer
          · rw [if_pos h5] at h
            exact absurd h (by simp)
          · rw [if_neg h5] at h
            by_cases h6 : (getEscrow s eid).arbiter = 0
            · rw [if_neg (not_not_intro h6)] at h
              by_cases h7 : (getEscrow s eid).expirationTime > 0 ∧
                  env.now > (getEscrow s eid).expirationTime
              · rw [if_pos h7] at h
                exact absurd h (by simp)
              · rw [if_neg h7] at h
                simp only [Except.ok.injEq, Prod.mk.injEq] at h
                obtain ⟨hs, hevs⟩ := h
                exact ⟨h1, h2, h3, h4, h5, h6, hs.symm, hevs.symm⟩
            · rw [if_pos h6] at h
              exact absurd h (by simp)
      · rw [if_pos h3] at h
        exact absurd h (by simp)
    · rw [if_pos h2] at h
      exact absurd h (by simp)

theorem depositPayment_shape {env : Env} {g : Addr} {eid : Nat} {s s' : SEState}
    {evs : List Transfer}
    (h : depositPayment env g eid s = Except.ok (s', evs)) :
    (getEscrow s eid).seller ≠ 0 ∧ (getEscrow s eid).state = EscrowState.Created ∧
    (getEscrow s eid).buyer = g ∧
    s' = { s with escrows := aupdate s.escrows eid ({ getEscrow s eid with state := if (getEscrow s eid).requiredSignatures.threshold = 0 then EscrowState.ReadyForExecution else EscrowState.BuyerDeposited }) } ∧
    evs = [Transfer.tokenToEscrow eid (getEscrow s eid).paymentToken g (getEscrow s eid).price] := by
  simp only [depositPayment] at h
  by_cases h1 : (getEscrow s eid).seller = 0
  · rw [if_pos h1] at h
    exact absurd h (by simp)
  · rw [if_neg h1] at h
    by_cases h2 : (getEscrow s eid).state = EscrowState.Created
    · rw [if_neg (not_not_intro h2)] at h
      by_cases h3 : (getEscrow s eid).buyer = g
      · rw [if_neg (not_not_intro h3)] at h
        by_cases h4 : (getEscrow s eid).expirationTime > 0 ∧
            env.now > (getEscrow s eid).expirationTime
        · rw [if_pos h4] at h
          exact absurd h (by simp)
        · rw [if_neg h4] at h
          by_cases h5 : env.erc20Ok = false
          · rw [if_pos h5] at h
            exact absurd h (by simp)
          · rw [if_neg h5] at h
            simp only [Except.ok.injEq, Prod.mk.injEq] at h
            obtain ⟨hs, hevs⟩ := h
            exact ⟨h1, h2, h3, hs.symm, hevs.symm⟩
      · rw [if_pos h3] at h
        exact absurd h (by simp)
    · rw [if_pos h2] at h
      exact absurd h (by simp)

theorem adminCancel_shape {env : Env} {g : Addr} {eid : Nat} {r : String}
    {s s' : SEState} {evs : List Transfer}
    (h : adminCancelEscrow env g eid r s = Except.ok (s', evs)) :
    (getEscrow s eid).seller ≠ 0 ∧
    ¬((getEscrow s eid).state = EscrowState.Completed ∨
      (getEscrow s eid).state = EscrowState.Cancelled) ∧
    s' = { s with escrows := aupdate s.escrows eid ({ getEscrow s eid with state := EscrowState.Cancelled }) } ∧
    evsTagged eid evs := by
  simp only [adminCancelEscrow] at h
  by_cases h1 : g = s.owner
  · rw [if_neg (not_not_intro h1)] at h
    by_cases h2 : (getEscrow s eid).seller = 0
    · rw [if_pos h2] at h
      exact absurd h (by simp)
    · rw [if_neg h2] at h
      by_cases h3 : (getEscrow s eid).state = EscrowState.Completed ∨
          (getEscrow s eid).state = EscrowState.Cancelled
      · rw [if_pos h3] at h
        exact absurd h (by simp)
      · rw [if_neg h3] at h
        obtain ⟨hs, htag⟩ := cancelEscrow_shape h
        exact ⟨h2, h3, hs, htag⟩
  · rw [if_pos h1] at h
    exact absurd h (by simp)

theorem invAll_update {s : SEState} (inv : InvAll s) (eid : Nat) (e' : Escrow) (cnt : Nat)
    (hsell : (getEscrow s eid).seller ≠ 0)
    (hcnt : s.escrowIdCounter ≤ cnt)
    (hth : 1 ≤ e'.requiredSignatures.threshold)
    (hrfe : e'.state ≠ EscrowState.ReadyForExecution)
    (hsz : e'.state ≠ EscrowState.Created → e'.seller ≠ 0) :
    ∀ id e, alookup (aupdate s.escrows eid e') id = some e →
      1 ≤ e.requiredSignatures.threshold ∧ e.state ≠ EscrowState.ReadyForExecution ∧
      (e.state ≠ EscrowState.Created → e.seller ≠ 0) ∧ 1 ≤ id ∧ id ≤ cnt := by
  intro id e hl
  rcases alookup_aupdate_cases _ _ _ _ _ hl with ⟨hik, hev⟩ | ⟨hik, hl'⟩
  · subst hev
    rw [hik]
    have he0 := inv eid (getEscrow s eid) (getEscrow_lookup_of_seller_ne hsell)
    exact ⟨hth, hrfe, hsz, he0.2.2.2.1, le_trans he0.2.2.2.2 hcnt⟩
  · obtain ⟨a, b, c, d, f⟩ := inv id e hl'
    exact ⟨a, b, c, d, le_trans f hcnt⟩

theorem invAll_step {s s' : SEState} {op : Op} {evs : List Transfer}
    (inv : InvAll s) (hex : execOp op s = Except.ok (s', evs)) : InvAll s' := by
  cases op with
  | create f env sender c t p pr a rb rs ra th ex =>
      simp only [execOp] at hex
      split at hex
      case h_2 => exact absurd hex (by simp)
      case h_1 s₀ evs₀ rid₀ heq =>
        simp only [Except.ok.injEq, Prod.mk.injEq] at hex
        obtain ⟨hs0, _hevs0⟩ := hex
        subst hs0
        obtain ⟨hrid, hth, _hle, _hra, hcnt', hesc, _hevs⟩ := createEscrow_shape heq
        subst hrid
        intro id e hl
        rw [hesc] at hl
        rw [hcnt']
        rcases alookup_aupdate_cases _ _ _ _ _ hl with ⟨hik, hev⟩ | ⟨hik, hl'⟩
        · subst hev
          rw [hik]
          refine ⟨hth, by simp, fun hne => absurd rfl hne, ?_, le_refl _⟩
          exact Nat.succ_le_succ (Nat.zero_le _)
        · obtain ⟨pa, pb, pc, pd, pf⟩ := inv id e hl'
          exact ⟨pa, pb, pc, pd, le_trans pf (Nat.le_succ _)⟩
  | assignBuyerOp env g eid =>
      simp only [execOp] at hex
      obtain ⟨h1, _h2, _h3, _h4, hs, _hevs⟩ := assignAsBuyer_shape hex
      subst hs
      have he0 := inv eid (getEscrow s eid) (getEscrow_lookup_of_seller_ne h1)
      intro id e hl
      exact invAll_update inv eid ({ getEscrow s eid with buyer := g }) s.escrowIdCounter
        h1 (le_refl _) he0.1 he0.2.1 he0.2.2.1 id e hl
  | assignArbiterOp env g eid arb =>
      simp only [execOp] at hex
      obtain ⟨h1, _h2, _h3, _h4, _h5, _h6, hs, _hevs⟩ := assignArbiter_shape hex
      subst hs
      have he0 := inv eid (getEscrow s eid) (getEscrow_lookup_of_seller_ne h1)
      intro id e hl
      exact invAll_update inv eid ({ getEscrow s eid with arbiter := arb }) s.escrowIdCounter
        h1 (le_refl _) he0.1 he0.2.1 he0.2.2.1 id e hl
  | deposit env g eid =>
      simp only [execOp] at hex
      obtain ⟨h1, _h2, _h3, hs, _hevs⟩ := depositPayment_shape hex
      subst hs
      have he0 := inv eid (getEscrow s eid) (getEscrow_lookup_of_seller_ne h1)
      have hc : ¬ ((getEscrow s eid).requiredSignatures.threshold = 0) := by
        have := he0.1
        omega
      intro id e hl
      refine invAll_update inv eid
        ({ getEscrow s eid with state := if (getEscrow s eid).requiredSignatures.threshold = 0 then EscrowState.ReadyForExecution else EscrowState.BuyerDeposited })
        s.escrowIdCounter h1 (le_refl _) he0.1 ?_ ?_ id e hl
      · show (if (getEscrow s eid).requiredSignatures.threshold = 0
            then EscrowState.ReadyForExecution else EscrowState.BuyerDeposited) ≠
          EscrowState.ReadyForExecution
        rw [if_neg hc]
        simp
      · intro _hne
        exact h1
  | approve env g eid tt =>
      simp only [execOp] at hex
      obtain ⟨h1, _h2, hesc, hcnt, _htag⟩ := approveTransaction_shape hex
      have he0 := inv eid (getEscrow s eid) (getEscrow_lookup_of_seller_ne h1)
      intro id e hl
      rw [hcnt]
      rcases hesc with he | he | he
      · rw [he] at hl
        exact inv id e hl
      · rw [he] at hl
        exact invAll_update inv eid ({ getEscrow s eid with state := EscrowState.Completed })
          s.escrowIdCounter h1 (le_refl _) he0.1 (by simp) (fun _ => h1) id e hl
      · rw [he] at hl
        exact invAll_update inv eid ({ getEscrow s eid with state := EscrowState.Cancelled })
          s.escrowIdCounter h1 (le_refl _) he0.1 (by simp) (fun _ => h1) id e hl
  | approveSig env g eid tt signer nonce sig =>
      simp only [execOp] at hex
      obtain ⟨h1, _h2, hesc, hcnt, _htag⟩ := approveSig_shape hex
      have he0 := inv eid (getEscrow s eid) (getEscrow_lookup_of_seller_ne h1)
      intro id e hl
      rw [hcnt]
      rcases hesc with he | he | he
      · rw [he] at hl
        exact inv id e hl
      · rw [he] at hl
        exact invAll_update inv eid ({ getEscrow s eid with state := EscrowState.Completed })
          s.escrowIdCounter h1 (le_refl _) he0.1 (by simp) (fun _ => h1) id e hl
      · rw [he] at hl
        exact invAll_update inv eid ({ getEscrow s eid with state := EscrowState.Cancelled })
          s.escrowIdCounter h1 (le_refl _) he0.1 (by simp) (fun _ => h1) id e hl
  | adminCancel env g eid r =>
      simp only [execOp] at hex
      obtain ⟨h1, _h2, hs, _htag⟩ := adminCancel_shape hex
      subst hs
      have he0 := inv eid (getEscrow s eid) (getEscrow_lookup_of_seller_ne h1)
      intro id e hl
      exact invAll_update inv eid ({ getEscrow s eid with state := EscrowState.Cancelled })
        s.escrowIdCounter h1 (le_refl _) he0.1 (by simp) (fun _ => h1) id e hl

theorem reachable_invAll {d : Addr} {s : SEState} (h : Reachable d s) : InvAll s := by
  induction h with
  | init =>
      intro id e hl
      simp [initialState, alookup] at hl
  | step _hr hex ih => exact invAll_step ih hex

theorem terminal_ne_state {te : Escrow}
    (hterm : te.state = EscrowState.Completed ∨ te.state = EscrowState.Cancelled) :
    te.state ≠ EscrowState.Created ∧ te.state ≠ EscrowState.BuyerDeposited := by
  rcases hterm with ht | ht <;> rw [ht] <;> exact ⟨by simp, by simp⟩

/-- C9: terminal states admit no further resolution and no double release.
On every reachable storage, once an escrow is `Completed` or `Cancelled`,
`approveTransaction` and `approveTransactionWithSignature` on it revert with
the wrong-state error, and every successful transaction of any kind leaves
that escrow's record untouched and performs no custody transfer tagged with
its id. -/
theorem c9_terminal_frozen {d : Addr} {s : SEState} (hr : Reachable d s)
    (tid : Nat) (te : Escrow) (hl : alookup s.escrows tid = some te)
    (hterm : te.state = EscrowState.Completed ∨ te.state = EscrowState.Cancelled) :
    (∀ env g tt, approveTransaction env g tid tt s = Except.error Err.InvalidState) ∧
    (∀ env caller tt signer nonce sig,
      approveTransactionWithSignature env caller tid tt signer nonce sig s =
        Except.error Err.InvalidState) ∧
    (∀ op s' evs, execOp op s = Except.ok (s', evs) →
      alookup s'.escrows tid = some te ∧ ∀ ev ∈ evs, Transfer.eid ev ≠ tid) := by
  have inv := reachable_invAll hr
  have hge : getEscrow s tid = te := by unfold getEscrow; rw [hl]; rfl
  have hterm' := terminal_ne_state hterm
  have hsell : te.seller ≠ 0 := (inv tid te hl).2.2.1 hterm'.1
  have hnotBD : ¬ (te.state = EscrowState.BuyerDeposited) := hterm'.2
  refine ⟨?_, ?_, ?_⟩
  · intro env g tt
    simp only [approveTransaction, hge]
    rw [if_neg hsell, if_pos hnotBD]
  · intro env caller tt signer nonce sig
    simp only [approveTransactionWithSignature, hge]
    rw [if_neg hsell, if_pos hnotBD]
  · intro op s' evs hex
    cases op with
    | create f env sender c t p pr a rb rs ra th ex =>
        simp only [execOp] at hex
        split at hex
        case h_2 => exact absurd hex (by simp)
        case h_1 s₀ evs₀ rid₀ heq =>
          simp only [Except.ok.injEq, Prod.mk.injEq] at hex
          obtain ⟨hs0, hevs0⟩ := hex
          subst hs0
          subst hevs0
          obtain ⟨hrid, _h1, _h2, _h3, _hcnt, hesc, hevs⟩ := createEscrow_shape heq
          subst hrid
          have htid_le : tid ≤ s.escrowIdCounter := (inv tid te hl).2.2.2.2
          have hne : tid ≠ s.escrowIdCounter + 1 := by omega
          constructor
          · rw [hesc, alookup_aupdate_ne _ _ _ _ hne]
            exact hl
          · intro ev hev
            rw [hevs] at hev
            simp only [List.mem_singleton] at hev
            rw [hev]
            show s.escrowIdCounter + 1 ≠ tid
            omega
    | assignBuyerOp env g eid =>
        simp only [execOp] at hex
        obtain ⟨_h1, h2, _h3, _h4, hs, hevs⟩ := assignAsBuyer_shape hex
        by_cases hq : eid = tid
        · subst hq
          rw [hge] at h2
          exact absurd h2 hterm'.1
        · have hne : tid ≠ eid := fun hh => hq hh.symm
          constructor
          · have hesc' : s'.escrows = aupdate s.escrows eid ({ getEscrow s eid with buyer := g }) := by
              rw [hs]
            rw [hesc', alookup_aupdate_ne _ _ _ _ hne]
            exact hl
          · intro ev hev
            rw [hevs] at hev
            simp at hev
    | assignArbiterOp env g eid arb =>
        simp only [execOp] at hex
        obtain ⟨_h1, h2, _h3, _h4, _h5, _h6, hs, hevs⟩ := assignArbiter_shape hex
        by_cases hq : eid = tid
        · subst hq
          rw [hge] at h2
          rcases h2 with h2 | h2
          · exact absurd h2 hterm'.1
          · exact absurd h2 hterm'.2
        · have hne : tid ≠ eid := fun hh => hq hh.symm
          constructor
          · have hesc' : s'.escrows = aupdate s.escrows eid ({ getEscrow s eid with arbiter := arb }) := by
              rw [hs]
            rw [hesc', alookup_aupdate_ne _ _ _ _ hne]
            exact hl
          · intro ev hev
            rw [hevs] at hev
            simp at hev
    | deposit env g eid =>
        simp only [execOp] at hex
        obtain ⟨_h1, h2, _h3, hs, hevs⟩ := depositPayment_shape hex
        by_cases hq : eid = tid
        · subst hq
          rw [hge] at h2
          exact absurd h2 hterm'.1
        · have hne : tid ≠ eid := fun hh => hq hh.symm
          constructor
          · have hesc' : s'.escrows = aupdate s.escrows eid ({ getEscrow s eid with state := if (getEscrow s eid).requiredSignatures.threshold = 0 then EscrowState.ReadyForExecution else EscrowState.BuyerDeposited }) := by
              rw [hs]
            rw [hesc', alookup_aupdate_ne _ _ _ _ hne]
            exact hl
          · intro ev hev
            rw [hevs] at hev
            simp only [List.mem_singleton] at hev
            rw [hev]
            show eid ≠ tid
            exact hq
    | approve env g eid tt =>
        simp only [execOp] at hex
        obtain ⟨_h1, h2, hesc, _hcnt, htag⟩ := approveTransaction_shape hex
        by_cases hq : eid = tid
        · subst hq
          rw [hge] at h2
          exact absurd h2 hterm'.2
        · have hne : tid ≠ eid := fun hh => hq hh.symm
          constructor
          · rcases hesc with he | he | he
            · rw [he]; exact hl
            · rw [he, alookup_aupdate_ne _ _ _ _ hne]; exact hl
            · rw [he, alookup_aupdate_ne _ _ _ _ hne]; exact hl
          · intro ev hev
            rw [htag ev hev]
            exact hq
    | approveSig env g eid tt signer nonce sig =>
        simp only [execOp] at hex
        obtain ⟨_h1, h2, hesc, _hcnt, htag⟩ := approveSig_shape hex
        by_cases hq : eid = tid
        · subst hq
          rw [hge] at h2
          exact absurd h2 hterm'.2
        · have hne : tid ≠ eid := fun hh => hq hh.symm
          constructor
          · rcases hesc with he | he | he
            · rw [he]; exact hl
            · rw [he, alookup_aupdate_ne _ _ _ _ hne]; exact hl
            · rw [he, alookup_aupdate_ne _ _ _ _ hne]; exact hl
          · intro ev hev
            rw [htag ev hev]
            exact hq
    | adminCancel env g eid r =>
        simp only [execOp] at hex
        obtain ⟨_h1, h2, hs, htag⟩ := adminCancel_shape hex
        by_cases hq : eid = tid
        · subst hq
          rw [hge] at h2
          exact absurd hterm h2
        · have hne : tid ≠ eid := fun hh => hq hh.symm
          constructor
          · have hesc' : s'.escrows = aupdate s.escrows eid ({ getEscrow s eid with state := EscrowState.Cancelled }) := by
              rw [hs]
            rw [hesc', alookup_aupdate_ne _ _ _ _ hne]
            exact hl
          · intro ev hev
            rw [htag ev hev]
            exact hq

/-- C10: the `ReadyForExecution` state is unreachable, because creation
rejects thresholds below 1 and the stored threshold never changes, so the
`threshold == 0` branch of `depositPayment` never fires. -/
theorem c10_ready_for_execution_unreachable {d : Addr} {s : SEState}
    (hr : Reachable d s) (id : Nat) (e : Escrow)
    (hl : alookup s.escrows id = some e) :
    1 ≤ e.requiredSignatures.threshold ∧ e.state ≠ EscrowState.ReadyForExecution :=
  ⟨(reachable_invAll hr id e hl).1, (reachable_invAll hr id e hl).2.1⟩

/-- Claim C1 (code divergence witnessed by evaluation): in the canonical
fresh Scenario A setup (escrow 1, threshold 2, buyer and seller eligible,
state `BuyerDeposited`, both stored nonces 0), the seller's `Complete`
approval yields count 1 as the claim states, but the buyer's subsequent
`Complete` approval does NOT accumulate: the record keyed by
`(1, Complete, 0)` still carries `approvalCount = 1` (its `nonce == 0`
sentinel re-initialises the count), the threshold is never reached, the
escrow stays in `BuyerDeposited`, and no custody moves — contradicting the
claimed transition to `Completed`. -/
theorem c1_scenarioA_fails :
    approveTransaction c1Env 10 1 TransactionType.CompleteEscrow c1S0 = Except.ok (c1S1, []) ∧
    (getTx c1S1 (1, TransactionType.CompleteEscrow, 0)).approvalCount = 1 ∧
    approveTransaction c1Env 20 1 TransactionType.CompleteEscrow c1S1 = Except.ok (c1S2, []) ∧
    (getTx c1S2 (1, TransactionType.CompleteEscrow, 0)).approvalCount = 1 ∧
    (getTx c1S2 (1, TransactionType.CompleteEscrow, 0)).approvals = [20, 10] ∧
    (getEscrow c1S2 1).state = EscrowState.BuyerDeposited :=
  ⟨rfl, rfl, rfl, rfl, rfl, rfl⟩

/-- Claim C2 counterexample: a direct on-chain `approveTransaction` call by
the seller (stored nonce 0) succeeds and leaves the seller's stored nonce at
1, not 0 — `uint256 nonce = userNonces[msg.sender]++` consumes a nonce on
the direct path too, refuting "the caller's stored nonce is the same after
the call as before it". -/
theorem c2_counterexample :
    nonceOf c2S0 10 = 0 ∧
    approveTransaction c2Env 10 1 TransactionType.CompleteEscrow c2S0 = Except.ok (c2S1, []) ∧
    nonceOf c2S1 10 = 1 ∧ nonceOf c2S1 10 ≠ nonceOf c2S0 10 :=
  ⟨rfl, rfl, rfl, by decide⟩

/-- Claim C2 as amended: direct on-chain approvals perform no nonce
equality check, but every accepted (non-reverting, non-expiry-diverted)
direct `approveTransaction` call increments the caller's stored nonce by
exactly one, because the current nonce is consumed to key the approval
record. -/
theorem c2_amended_nonce_consumed (env : Env) (g : Addr) (eid : Nat)
    (tt : TransactionType) (s s' : SEState) (evs : List Transfer)
    (hnx : ¬ ((getEscrow s eid).expirationTime > 0 ∧ env.now > (getEscrow s eid).expirationTime))
    (h : approveTransaction env g eid tt s = Except.ok (s', evs)) :
    nonceOf s' g = nonceOf s g + 1 := by
  simp only [approveTransaction] at h
  by_cases h1 : (getEscrow s eid).seller = 0
  · rw [if_pos h1] at h
    exact absurd h (by simp)
  · rw [if_neg h1] at h
    by_cases h2 : (getEscrow s eid).state = EscrowState.BuyerDeposited
    · rw [if_neg (not_not_intro h2)] at h
      rw [if_neg hnx] at h
      by_cases h4 : isAuthorizedSigner (getEscrow s eid) g = true
      · rw [if_neg (not_not_intro h4)] at h
        obtain ⟨_hesc, hnon, _hcnt, _hown, _htag⟩ := applyApproval_shape h
        unfold nonceOf
        rw [hnon]
        show (alookup (aupdate s.userNonces g (nonceOf s g + 1)) g).getD 0 = nonceOf s g + 1
        rw [alookup_aupdate_self]
        rfl
      · rw [if_pos h4] at h
        exact absurd h (by simp)
    · rw [if_pos h2] at h
      exact absurd h (by simp)

/-- Witness for the amended C2 theorem at the concrete Scenario A state. -/
theorem c2_amended_witness : nonceOf c2S1 10 = nonceOf c2S0 10 + 1 :=
  c2_amended_nonce_consumed c2Env 10 1 TransactionType.CompleteEscrow c2S0 c2S1 []
    (by decide) rfl

/-- Claim C3 counterexample: the seller calling `approveTransaction` twice
on the same (escrow 1, Complete) pair is NOT a no-op and does not leave the
state of one call: the second call consumes a second nonce (stored nonce
becomes 2, not 1) and creates a second, distinct transaction record keyed
by the fresh nonce, so the resulting storages differ. -/
theorem c3_counterexample :
    approveTransaction c3Env 10 1 TransactionType.CompleteEscrow c3S0 = Except.ok (c3S1, []) ∧
    approveTransaction c3Env 10 1 TransactionType.CompleteEscrow c3S1 = Except.ok (c3S2, []) ∧
    c3S2 ≠ c3S1 ∧ nonceOf c3S2 10 = 2 ∧ nonceOf c3S1 10 = 1 ∧
    c3S2.transactions.length = 2 ∧ c3S1.transactions.length = 1 ∧
    (getTx c3S2 (1, TransactionType.CompleteEscrow, 1)).approvals = [10] :=
  ⟨rfl, rfl, by decide, rfl, rfl, rfl, rfl, rfl⟩

/-- Claim C3 as amended: idempotence holds only within a single transaction
record — if the signer is already in the record's approved set (and the
record is genuinely initialised, i.e. its stored nonce is nonzero so the
`nonce == 0` re-initialisation sentinel does not fire), the shared approval
block is a no-op, not an error: it stores the record back unchanged, emits
no custody event, and does not change the approval count. Across calls,
however, each direct approval consumes a fresh nonce and keys a new record
(see the counterexample), so call-level idempotence fails. -/
theorem c3_amended_record_idempotent (env : Env) (eid : Nat) (tt : TransactionType)
    (g : Addr) (n : Nat) (s : SEState)
    (hn : (getTx s (eid, tt, n)).nonce ≠ 0)
    (hmem : g ∈ (getTx s (eid, tt, n)).approvals) :
    applyApproval env eid tt g n s =
      Except.ok ({ s with transactions := aupdate s.transactions (eid, tt, n) (getTx s (eid, tt, n)) }, []) ∧
    getTx { s with transactions := aupdate s.transactions (eid, tt, n) (getTx s (eid, tt, n)) } (eid, tt, n) =
      getTx s (eid, tt, n) := by
  have hi : initTx eid tt n (getTx s (eid, tt, n)) = getTx s (eid, tt, n) := by
    unfold initTx
    rw [if_neg hn]
  constructor
  · simp only [applyApproval]
    rw [hi, if_pos hmem]
  · unfold getTx
    show (alookup (aupdate s.transactions (eid, tt, n)
        ((alookup s.transactions (eid, tt, n)).getD defaultTransaction)) (eid, tt, n)).getD
        defaultTransaction =
      (alookup s.transactions (eid, tt, n)).getD defaultTransaction
    rw [alookup_aupdate_self]
    rfl

/-- Witness for the amended C3 theorem: repeating signer 10 on an already
initialised record is a no-op. -/
theorem c3_amended_witness :
    applyApproval c3Env 1 TransactionType.CompleteEscrow 10 5 c3WS =
      Except.ok ({ c3WS with transactions := aupdate c3WS.transactions (1, TransactionType.CompleteEscrow, 5) (getTx c3WS (1, TransactionType.CompleteEscrow, 5)) }, []) ∧
    getTx { c3WS with transactions := aupdate c3WS.transactions (1, TransactionType.CompleteEscrow, 5) (getTx c3WS (1, TransactionType.CompleteEscrow, 5)) } (1, TransactionType.CompleteEscrow, 5) =
      getTx c3WS (1, TransactionType.CompleteEscrow, 5) :=
  c3_amended_record_idempotent c3Env 1 TransactionType.CompleteEscrow 10 5 c3WS
    (by decide) (by decide)

/-- Claim C4 counterexample: an expired escrow still in `Created` with no
buyer (the Scenario C configuration: expiration 100, now 200) is NOT lazily
cancelled by an interaction — `assignAsBuyer` reverts with the expiry error
instead of performing cancellation side effects, leaving the escrow in
`Created` with the asset still in custody. -/
theorem c4_counterexample :
    (getEscrow c4S 1).state = EscrowState.Created ∧
    (getEscrow c4S 1).expirationTime = 100 ∧ c4Env.now = 200 ∧
    assignAsBuyer c4Env 20 1 c4S = Except.error Err.Expired ∧
    depositPayment c4Env 20 1 c4S = Except.error Err.NotBuyer ∧
    assignArbiter c4Env 10 1 30 c4S = Except.error Err.Expired :=
  ⟨rfl, rfl, rfl, rfl, rfl, rfl⟩

/-- Claim C4 as amended: lazy expiry cancellation fires only inside the two
approval entry points, and only when the escrow is in `BuyerDeposited`
(where the state guard passes before the expiry test); there it performs
the full cancellation (asset back to the seller and, because the state is
`BuyerDeposited`, payment back to the buyer) by delegating to
`_cancelEscrow`.  All other interactions — `assignAsBuyer`,
`assignArbiter`, `depositPayment` — revert with `Expired` on an expired
escrow without cancelling it, so an expired `Created` escrow is never
lazily cancelled. -/
theorem c4_amended_lazy_expiry :
    (∀ env g eid tt s,
      (getEscrow s eid).seller ≠ 0 →
      (getEscrow s eid).state = EscrowState.BuyerDeposited →
      (getEscrow s eid).expirationTime > 0 ∧ env.now > (getEscrow s eid).expirationTime →
      approveTransaction env g eid tt s = _cancelEscrow env eid "Escrow expired" s) ∧
    (∀ env caller eid tt signer nonce sig s,
      (getEscrow s eid).seller ≠ 0 →
      (getEscrow s eid).state = EscrowState.BuyerDeposited →
      (getEscrow s eid).expirationTime > 0 ∧ env.now > (getEscrow s eid).expirationTime →
      approveTransactionWithSignature env caller eid tt signer nonce sig s =
        _cancelEscrow env eid "Escrow expired" s) ∧
    (∀ env eid r s, env.nftOk = true →
      _cancelEscrow env eid r s =
        Except.ok ({ s with escrows := aupdate s.escrows eid ({ getEscrow s eid with state := EscrowState.Cancelled }) },
          Transfer.nftFromEscrow eid (getEscrow s eid).nftContract (getEscrow s eid).tokenId (getEscrow s eid).seller ::
            (if (getEscrow s eid).state = EscrowState.BuyerDeposited ∧ env.erc20Ok then [Transfer.tokenFromEscrow eid (getEscrow s eid).paymentToken (getEscrow s eid).buyer (getEscrow s eid).price] else []))) ∧
    (∀ env g eid s,
      (getEscrow s eid).seller ≠ 0 →
      (getEscrow s eid).state = EscrowState.Created →
      (getEscrow s eid).seller ≠ g →
      (getEscrow s eid).buyer = 0 →
      (getEscrow s eid).expirationTime > 0 ∧ env.now > (getEscrow s eid).expirationTime →
      assignAsBuyer env g eid s = Except.error Err.Expired) ∧
    (∀ env g eid s,
      (getEscrow s eid).seller ≠ 0 →
      (getEscrow s eid).state = EscrowState.Created →
      (getEscrow s eid).buyer = g →
      (getEscrow s eid).expirationTime > 0 ∧ env.now > (getEscrow s eid).expirationTime →
      depositPayment env g eid s = Except.error Err.Expired) ∧
    (∀ env eid arb s,
      (getEscrow s eid).seller ≠ 0 →
      ((getEscrow s eid).state = EscrowState.Created ∨
        (getEscrow s eid).state = EscrowState.BuyerDeposited) →
      arb ≠ 0 → ¬(arb = (getEscrow s eid).seller ∨ arb = (getEscrow s eid).buyer) →
      (getEscrow s eid).arbiter = 0 →
      (getEscrow s eid).expirationTime > 0 ∧ env.now > (getEscrow s eid).expirationTime →
      assignArbiter env ((getEscrow s eid).seller) eid arb s = Except.error Err.Expired) := by
  refine ⟨?_, ?_, ?_, ?_, ?_, ?_⟩
  · intro env g eid tt s h1 h2 h3
    simp only [approveTransaction]
    rw [if_neg h1, if_neg (not_not_intro h2), if_pos h3]
  · intro env caller eid tt signer nonce sig s h1 h2 h3
    simp only [approveTransactionWithSignature]
    rw [if_neg h1, if_neg (not_not_intro h2), if_pos h3]
  · intro env eid r s hnft
    simp only [_cancelEscrow]
    rw [if_neg (by rw [hnft]; simp)]
  · intro env g eid s h1 h2 h3 h4 h5
    simp only [assignAsBuyer]
    rw [if_neg h1, if_neg (not_not_intro h2), if_neg h3, if_neg (not_not_intro h4), if_pos h5]
  · intro env g eid s h1 h2 h3 h4
    simp only [depositPayment]
    rw [if_neg h1, if_neg (not_not_intro h2), if_neg (not_not_intro h3), if_pos h4]
  · intro env eid arb s h1 h2 h3 h4 h5 h6
    simp only [assignArbiter]
    rw [if_neg h1, if_neg (not_not_intro h2), if_neg (not_not_intro trivial), if_neg h3,
        if_neg h4, if_neg (not_not_intro h5), if_pos h6]

/-- Witness for the amended C4 theorem: an approval on an expired
`BuyerDeposited` escrow is diverted into `_cancelEscrow`. -/
theorem c4_amended_witness :
    approveTransaction c4Env 10 1 TransactionType.CompleteEscrow c4bS =
      _cancelEscrow c4Env 1 "Escrow expired" c4bS :=
  c4_amended_lazy_expiry.1 c4Env 10 1 TransactionType.CompleteEscrow c4bS
    (by decide) (by decide) (by decide)

theorem getEscrow_update {s : SEState} {eid : Nat} {e' : Escrow} :
    getEscrow { s with escrows := aupdate s.escrows eid e' } eid = e' := by
  unfold getEscrow
  show (alookup (aupdate s.escrows eid e') eid).getD defaultEscrow = e'
  rw [alookup_aupdate_self]
  rfl

/-- Claim C5 counterexample: `createEscrow` with arbiter eligibility set
accepts an arbiter equal to the seller (it only requires the arbiter to be
nonzero), so the party-distinctness invariant fails at creation: caller 10
creates an escrow whose stored arbiter equals its stored seller. -/
theorem c5_counterexample :
    createEscrow (fun _ _ => 10) c1Env 10 5 7 3 100 10 true true true 2 0 (initialState 99) =
      Except.ok (c5S1, [Transfer.nftToEscrow 1 5 7 10], 1) ∧
    (getEscrow c5S1 1).requiredSignatures.requireArbiter = true ∧
    (getEscrow c5S1 1).arbiter = (getEscrow c5S1 1).seller :=
  ⟨rfl, rfl, rfl⟩

/-- Claim C5 as amended: distinctness is enforced only on the assignment
paths — a successful `assignAsBuyer` stores a buyer different from the
seller, and a successful `assignArbiter` stores an arbiter different from
both the seller and the buyer; `createEscrow` itself only requires a
nonzero arbiter when arbiter eligibility is set, so escrows with
`arbiter = seller` are creatable (see the counterexample). -/
theorem c5_amended_assignment_distinctness :
    (∀ env g eid s s' evs, assignAsBuyer env g eid s = Except.ok (s', evs) →
      (getEscrow s' eid).buyer ≠ (getEscrow s' eid).seller) ∧
    (∀ env g eid arb s s' evs, assignArbiter env g eid arb s = Except.ok (s', evs) →
      (getEscrow s' eid).arbiter ≠ (getEscrow s' eid).seller ∧
      (getEscrow s' eid).arbiter ≠ (getEscrow s' eid).buyer) := by
  constructor
  · intro env g eid s s' evs h
    obtain ⟨_h1, _h2, h3, _h4, hs, _hevs⟩ := assignAsBuyer_shape h
    rw [hs, getEscrow_update]
    show g ≠ (getEscrow s eid).seller
    exact fun hh => h3 hh.symm
  · intro env g eid arb s s' evs h
    obtain ⟨_h1, _h2, _h3, _h4, h5, _h6, hs, _hevs⟩ := assignArbiter_shape h
    rw [hs, getEscrow_update]
    constructor
    · show arb ≠ (getEscrow s eid).seller
      exact fun hh => h5 (Or.inl hh)
    · show arb ≠ (getEscrow s eid).buyer
      exact fun hh => h5 (Or.inr hh)

/-- Witness for the amended C5 theorem at a concrete buyer assignment. -/
theorem c5_amended_witness :
    (getEscrow c5wS1 1).buyer ≠ (getEscrow c5wS1 1).seller :=
  c5_amended_assignment_distinctness.1 c1Env 20 1 c5wS c5wS1 [] rfl

/-- Claim C6 (code divergence witnessed by evaluation): when the payment
token's `transfer` returns false during resolution (environment
`erc20Ok = false`), `_completeEscrow` does NOT abort — the unchecked ERC-20
return value is ignored, the NFT is still released to the buyer, no payment
reaches the seller, and the escrow is marked `Completed`: a partial
resolution with a state change, contradicting the claimed atomic abort.
`depositPayment`, by contrast, does check its `transferFrom` result and
reverts with no effect, as the claim demands. -/
theorem c6_partial_resolution :
    approveTransaction c6EnvFail 10 1 TransactionType.CompleteEscrow c6S0 =
      Except.ok (c6S1, [Transfer.nftFromEscrow 1 5 7 20]) ∧
    (getEscrow c6S1 1).state = EscrowState.Completed ∧
    depositPayment c6EnvFail 20 1 c6DepS = Except.error Err.TokenTransferFailed :=
  ⟨rfl, rfl, rfl⟩

theorem sig_wrong_nonce (env : Env) (caller : Addr) (eid : Nat) (tt : TransactionType)
    (g : Addr) (m : Nat) (sig : Sig) (s : SEState)
    (hsell : (getEscrow s eid).seller ≠ 0)
    (hst : (getEscrow s eid).state = EscrowState.BuyerDeposited)
    (hnx : ¬ ((getEscrow s eid).expirationTime > 0 ∧ env.now > (getEscrow s eid).expirationTime))
    (hau : isAuthorizedSigner (getEscrow s eid) g = true)
    (hm : ¬ (m = nonceOf s g)) :
    approveTransactionWithSignature env caller eid tt g m sig s =
      Except.error Err.InvalidNonce := by
  simp only [approveTransactionWithSignature]
  rw [if_neg hsell, if_neg (not_not_intro hst), if_neg hnx, if_neg (not_not_intro hau),
      if_pos hm]

theorem applyApproval_getEscrow {env : Env} {eid : Nat} {tt : TransactionType} {g : Addr}
    {n : Nat} {s s' : SEState} {evs : List Transfer}
    (h : applyApproval env eid tt g n s = Except.ok (s', evs)) :
    getEscrow s' eid = getEscrow s eid ∨
    getEscrow s' eid = { getEscrow s eid with state := EscrowState.Completed } ∨
    getEscrow s' eid = { getEscrow s eid with state := EscrowState.Cancelled } := by
  obtain ⟨hesc, _hnon, _hcnt, _hown, _htag⟩ := applyApproval_shape h
  rcases hesc with he | he | he
  · left
    unfold getEscrow
    rw [he]
  · right; left
    unfold getEscrow
    rw [he, alookup_aupdate_self]
    rfl
  · right; right
    unfold getEscrow
    rw [he, alookup_aupdate_self]
    rfl

/-- Claim C7: the off-chain signature path enforces strict nonce equality
and single use.  Under the guards of a live approval (existing escrow in
`BuyerDeposited`, not expired, authorized signer, NFT custody call able to
succeed): (a) any supplied nonce different from the signer's stored nonce
is rejected with the invalid-nonce authorization error and, the call
reverting, no ledger state changes; (b) the call with the exact stored
nonce and a valid signature succeeds, leaves the signer's stored nonce
exactly one greater, and resubmitting the identical signature against the
resulting state (still in `BuyerDeposited`) is rejected with the
invalid-nonce error. -/
theorem c7_signature_nonce_protocol (env : Env) (caller : Addr) (eid : Nat)
    (tt : TransactionType) (g : Addr) (s : SEState)
    (hsell : (getEscrow s eid).seller ≠ 0)
    (hst : (getEscrow s eid).state = EscrowState.BuyerDeposited)
    (hnx : ¬ ((getEscrow s eid).expirationTime > 0 ∧ env.now > (getEscrow s eid).expirationTime))
    (hau : isAuthorizedSigner (getEscrow s eid) g = true)
    (hnft : env.nftOk = true) :
    (∀ m sig, m ≠ nonceOf s g →
      approveTransactionWithSignature env caller eid tt g m sig s =
        Except.error Err.InvalidNonce) ∧
    (∃ s' evs,
      approveTransactionWithSignature env caller eid tt g (nonceOf s g)
        { signedBy := g, digest := (eid, tt, nonceOf s g) } s = Except.ok (s', evs) ∧
      nonceOf s' g = nonceOf s g + 1 ∧
      ((getEscrow s' eid).state = EscrowState.BuyerDeposited →
        approveTransactionWithSignature env caller eid tt g (nonceOf s g)
          { signedBy := g, digest := (eid, tt, nonceOf s g) } s' =
          Except.error Err.InvalidNonce)) := by
  constructor
  · intro m sig hm
    exact sig_wrong_nonce env caller eid tt g m sig s hsell hst hnx hau hm
  · have hrec : ecrecover (eid, tt, nonceOf s g)
        { signedBy := g, digest := (eid, tt, nonceOf s g) } = g := by
      unfold ecrecover
      rw [if_pos rfl]
    have hmain : approveTransactionWithSignature env caller eid tt g (nonceOf s g)
        { signedBy := g, digest := (eid, tt, nonceOf s g) } s =
        applyApproval env eid tt g (nonceOf s g)
          { s with userNonces := aupdate s.userNonces g (nonceOf s g + 1) } := by
      simp only [approveTransactionWithSignature]
      rw [if_neg hsell, if_neg (not_not_intro hst), if_neg hnx, if_neg (not_not_intro hau),
          if_neg (not_not_intro trivial), if_neg (not_not_intro hrec)]
    obtain ⟨s', evs, hap⟩ := applyApproval_ok hnft eid tt g (nonceOf s g)
      { s with userNonces := aupdate s.userNonces g (nonceOf s g + 1) }
    have hnonce : nonceOf s' g = nonceOf s g + 1 := by
      obtain ⟨_hesc, hnon, _hcnt, _hown, _htag⟩ := applyApproval_shape hap
      unfold nonceOf
      rw [hnon]
      show (alookup (aupdate s.userNonces g (nonceOf s g + 1)) g).getD 0 = nonceOf s g + 1
      rw [alookup_aupdate_self]
      rfl
    refine ⟨s', evs, by rw [hmain]; exact hap, hnonce, ?_⟩
    intro hst'
    have hget := applyApproval_getEscrow hap
    have hsell' : (getEscrow s' eid).seller ≠ 0 := by
      rcases hget with hg | hg | hg <;> rw [hg] <;> exact hsell
    have hnx' : ¬ ((getEscrow s' eid).expirationTime > 0 ∧
        env.now > (getEscrow s' eid).expirationTime) := by
      rcases hget with hg | hg | hg <;> rw [hg] <;> exact hnx
    have hau' : isAuthorizedSigner (getEscrow s' eid) g = true := by
      rcases hget with hg | hg | hg <;> rw [hg] <;> exact hau
    have hm' : ¬ (nonceOf s g = nonceOf s' g) := by
      rw [hnonce]
      omega
    exact sig_wrong_nonce env caller eid tt g (nonceOf s g)
      { signedBy := g, digest := (eid, tt, nonceOf s g) } s' hsell' hst' hnx' hau' hm'

/-- Witness for C7: against the concrete state (stored nonce 0), submitting
nonce 5 is rejected with the invalid-nonce error. -/
theorem c7_witness :
    approveTransactionWithSignature c7Env 77 1 TransactionType.CompleteEscrow 10 5
      { signedBy := 10, digest := (1, TransactionType.CompleteEscrow, 5) } c7S =
      Except.error Err.InvalidNonce :=
  (c7_signature_nonce_protocol c7Env 77 1 TransactionType.CompleteEscrow 10 c7S
      (by decide) (by decide) (by decide) (by decide) rfl).1 5
    { signedBy := 10, digest := (1, TransactionType.CompleteEscrow, 5) } (by decide)

theorem eligibleCountSpec_eq_maxSigners (rb rs ra : Bool) (a : Addr)
    (h : ¬ (ra = true ∧ a = 0)) :
    eligibleCountSpec rb rs ra a =
      (if rb then 1 else 0) + (if rs then 1 else 0) + (if ra then 1 else 0) := by
  unfold eligibleCountSpec
  rcases Bool.eq_false_or_eq_true ra with hb | hb
  · rw [hb]
    have ha : a ≠ 0 := fun h0 => h ⟨hb, h0⟩
    simp [ha]
  · rw [hb]
    simp

/-- Claim C8: creation validates the threshold against the eligible-role
count (arbiter counted only when provided) before custody is touched.  A
threshold of 0, or one exceeding the eligible count, always makes
`createEscrow` revert with a configuration error — reverts carry no state
or custody change — and every successful creation stores a threshold
between 1 and the eligible count of the stored configuration. -/
theorem c8_threshold_validation :
    (∀ (f : Addr → Nat → Addr) env sender c t p pr a rb rs ra th ex s,
      th = 0 ∨ eligibleCountSpec rb rs ra a < th →
      isConfigCreationError (createEscrow f env sender c t p pr a rb rs ra th ex s)) ∧
    (∀ (f : Addr → Nat → Addr) env sender c t p pr a rb rs ra th ex s s' evs rid,
      createEscrow f env sender c t p pr a rb rs ra th ex s = Except.ok (s', evs, rid) →
      1 ≤ (getEscrow s' rid).requiredSignatures.threshold ∧
      (getEscrow s' rid).requiredSignatures.threshold ≤
        eligibleCountSpec (getEscrow s' rid).requiredSignatures.requireBuyer
          (getEscrow s' rid).requiredSignatures.requireSeller
          (getEscrow s' rid).requiredSignatures.requireArbiter
          (getEscrow s' rid).arbiter) := by
  constructor
  · intro f env sender c t p pr a rb rs ra th ex s hbad
    simp only [createEscrow]
    by_cases h1 : c = 0
    · rw [if_pos h1]
      trivial
    · rw [if_neg h1]
      by_cases h2 : pr = 0
      · rw [if_pos h2]
        trivial
      · rw [if_neg h2]
        by_cases h3 : ra = true ∧ a = 0
        · rw [if_pos h3]
          trivial
        · rw [if_neg h3]
          have hmax := eligibleCountSpec_eq_maxSigners rb rs ra a h3
          have hbad' : ¬ (0 < th ∧
              th ≤ (if rb then 1 else 0) + (if rs then 1 else 0) + (if ra then 1 else 0)) := by
            rw [← hmax]
            rcases hbad with hb | hb
            · omega
            · omega
          rw [if_pos hbad']
          trivial
  · intro f env sender c t p pr a rb rs ra th ex s s' evs rid h
    obtain ⟨_hrid, hpos, hle, hra, _hcnt, hesc, _hevs⟩ := createEscrow_shape h
    have hg : getEscrow s' rid =
        { seller := sender, nftContract := c, tokenId := t,
          paymentToken := if p = 0 then DEFAULT_PAYMENT_TOKEN else p, price := pr,
          buyer := 0, arbiter := a, state := EscrowState.Created,
          requiredSignatures :=
            { requireBuyer := rb, requireSeller := rs, requireArbiter := ra, threshold := th },
          expirationTime := ex } := by
      unfold getEscrow
      rw [hesc, alookup_aupdate_self]
      rfl
    rw [hg]
    have hnra : ¬ (ra = true ∧ a = 0) := fun hh => hra hh.1 hh.2
    have hmax := eligibleCountSpec_eq_maxSigners rb rs ra a hnra
    constructor
    · exact hpos
    · show th ≤ eligibleCountSpec rb rs ra a
      rw [hmax]
      exact hle

/-- Witness for C8: threshold 0 is rejected as a configuration error, and
threshold 3 with only buyer and seller eligible likewise; a valid creation
with threshold 2 of {buyer, seller} stores a threshold within bounds. -/
theorem c8_witness :
    isConfigCreationError
      (createEscrow (fun _ _ => 10) c1Env 10 5 7 3 100 0 true true false 0 0 (initialState 99)) ∧
    isConfigCreationError
      (createEscrow (fun _ _ => 10) c1Env 10 5 7 3 100 0 true true false 3 0 (initialState 99)) :=
  ⟨c8_threshold_validation.1 (fun _ _ => 10) c1Env 10 5 7 3 100 0 true true false 0 0
      (initialState 99) (Or.inl rfl),
   c8_threshold_validation.1 (fun _ _ => 10) c1Env 10 5 7 3 100 0 true true false 3 0
      (initialState 99) (Or.inr (by decide))⟩

/-- Witness for C9: after a concrete two-transaction history (creation then
admin cancellation), approving the now-Cancelled escrow 1 reverts with the
wrong-state error. -/
theorem c9_witness :
    approveTransaction c9Env 10 1 TransactionType.CompleteEscrow c9S2 =
      Except.error Err.InvalidState :=
  (c9_terminal_frozen
      (Reachable.step
        (Reachable.step Reachable.init
          (show execOp c9Op1 (initialState 99) =
              Except.ok (c9S1, [Transfer.nftToEscrow 1 5 7 10]) from rfl))
        (show execOp c9Op2 c9S1 =
            Except.ok (c9S2, [Transfer.nftFromEscrow 1 5 7 10]) from rfl))
      1 c9E2 rfl (Or.inr rfl)).1 c9Env 10 TransactionType.CompleteEscrow

/-- Witness for C10: in a concrete reachable state the stored escrow has a
positive threshold and is not in `ReadyForExecution`. -/
theorem c10_witness :
    1 ≤ c10E.requiredSignatures.threshold ∧
    c10E.state ≠ EscrowState.ReadyForExecution :=
  c10_ready_for_execution_unreachable
    (Reachable.step Reachable.init
      (show execOp c10Op (initialState 99) =
          Except.ok (c10S1, [Transfer.nftToEscrow 1 5 7 10]) from rfl))
    1 c10E rfl
